import Mathlib

/-!
Verification of the Watson synchronization core (src/watson/watson.py and
src/watson/artichio.py): a shallow embedding of the pull/push/merge engine
and of the artich.io HTTP backend, with theorems settling the spec claims.

Timestamps are modelled as `Int` (arrow instants compare totally); JSON
bodies are modelled as parsed values, with explicit render functions
standing for Python's stringification of `response.json()`.
-/

set_option autoImplicit false

/-- Modelled from the spec: the `Frame` record.  `frames.py` is not under
`src/`; the spec (section 3) gives the fields `id`, `project`, `start`,
`stop`, `tags`, `updated_at`, and states that two frames are equal only if
every field is equal, so structural `DecidableEq` is the field-equality of
the source's `Frame` namedtuple. -/
structure Frame where
  id : String
  project : String
  start : Int
  stop : Int
  tags : List String
  updated_at : Int
deriving DecidableEq, Repr

/-- Modelled from the spec: `FrameStore` lookup by id (`frames.py` is not
under `src/`; spec section 3: mapping from id to Frame, lookup by id fails
with NotFound when absent). -/
def findFrame (store : List Frame) (i : String) : Option Frame :=
  store.find? (fun f => f.id == i)

/-- Modelled from the spec: `FrameStore` membership test by id
(`frame.id not in self.frames` in the source). -/
def memFrame (store : List Frame) (i : String) : Bool :=
  (findFrame store i).isSome

/-- Modelled from the spec: `FrameStore` insertion/overwrite by id
(`self.frames[frame.id] = frame` in the source). -/
def setFrame (store : List Frame) (fr : Frame) : List Frame :=
  if memFrame store fr.id then
    store.map (fun f => if f.id == fr.id then fr else f)
  else
    store ++ [fr]

/-- The in-memory state of a `Watson` object that the sync engine touches:
the frame store and the `last_sync` cursor. -/
structure WatsonState where
  frames : List Frame
  last_sync : Int
deriving DecidableEq, Repr

/-- Python exception values raised by the sync core.  `ConfigurationError`
subclasses `WatsonError` in the source; both carry only a message. -/
inductive PyErr where
  | watsonError (msg : String)
  | configurationError (msg : String)
deriving DecidableEq, Repr

/-- The Python class name of a raised exception (`type(e).__name__`): the
only type-level information a caller can dispatch on. -/
def errKind : PyErr → String
  | PyErr.watsonError _ => "WatsonError"
  | PyErr.configurationError _ => "ConfigurationError"

/-- The loop body of `Watson.pull` (watson.py lines 315-319): for each frame
yielded by the backend, apply it iff its id is absent from the store at that
moment or its `updated_at` is strictly newer than the cursor read at the
start of the call; returns the final store and the applied list. -/
def Watson.pullLoop (last_sync : Int) : List Frame → List Frame → List Frame × List Frame
  | store, [] => (store, [])
  | store, f :: rest =>
    if memFrame store f.id = false ∨ f.updated_at > last_sync then
      let r := Watson.pullLoop last_sync (setFrame store f) rest
      (r.1, f :: r.2)
    else
      Watson.pullLoop last_sync store rest

/-- Embeds `Watson.pull` (watson.py lines 310-321).  The backend generator's
behaviour is modelled as the list of frames it yields followed by an
optional exception raised in-flight: the Python `for` loop mutates
`self.frames` in place before any such exception propagates, so the
returned state reflects every frame applied before the failure.  The
cursor is read once at the start and never written. -/
def Watson.pull (s : WatsonState) (remote : List Frame × Option PyErr) :
    WatsonState × Except PyErr (List Frame) :=
  let r := Watson.pullLoop s.last_sync s.frames remote.1
  (⟨r.1, s.last_sync⟩,
    match remote.2 with
    | some e => Except.error e
    | none => Except.ok r.2)

/-- The generator expression of `Watson.push` (watson.py lines 325-326):
`frame for frame in self.frames if last_pull > frame.updated_at > self.last_sync`,
both comparisons strict. -/
def Watson.pushSelection (s : WatsonState) (last_pull : Int) : List Frame :=
  s.frames.filter (fun f => decide (last_pull > f.updated_at ∧ f.updated_at > s.last_sync))

/-- Embeds `Watson.merge_report` (watson.py lines 330-348), applied to the conflict
frame set already loaded from the given file: each conflict frame is looked
up by id in the local store; a present, non-equal original makes it
conflicting; a missing id (KeyError) makes it merging; a present, equal
original drops it. -/
def Watson.merge_report (store : List Frame) : List Frame → List Frame × List Frame
  | [] => ([], [])
  | g :: rest =>
    let r := Watson.merge_report store rest
    match findFrame store g.id with
    | some orig => if orig ≠ g then (g :: r.1, r.2) else r
    | none => (r.1, g :: r.2)

/-- The configuration keys the backend reads: `backend.url` and
`backend.token`.  Python truthiness of the strings is modelled as
non-emptiness. -/
structure Config where
  url : String
  token : String
deriving DecidableEq, Repr

/-- One entry of the remote project listing JSON (spec section 6: array of
name/url objects). -/
structure RemoteProject where
  name : String
  url : String
deriving DecidableEq, Repr

/-- The headers built by `_get_request_info`. -/
structure Headers where
  contentType : String
  authorization : String
deriving DecidableEq, Repr

/-- A frame as it appears in the pull response JSON: `project` is a remote
project URL still to be resolved to a name. -/
structure WireFrame where
  id : String
  start : Int
  stop : Int
  project : String
  tags : List String
  updated_at : Int
deriving DecidableEq, Repr

/-- A record of the bulk-upload JSON array built by `ArtichIOSync.push`:
`start` and `stop` are stringified, `project` is the resolved remote URL. -/
structure UploadRecord where
  id : String
  start : String
  stop : String
  project : String
  tags : List String
deriving DecidableEq, Repr

/-- The outcome of one HTTP request, as observed by the backend: either a
connection-level failure (`requests.ConnectionError`) or a response with a
status code and a parsed JSON body. -/
inductive NetResult (σ : Type) where
  | connectionError
  | response (status : Nat) (body : σ)
deriving DecidableEq, Repr

/-- A network request issued by the backend, recorded as an event so that
ordering of validation and I/O can be stated. -/
inductive NetEvent where
  | get (dest : String)
  | post (dest : String)
deriving DecidableEq, Repr

/-- Whether an event is a POST to the frames endpoint. -/
def NetEvent.isPost : NetEvent → Bool
  | NetEvent.post _ => true
  | NetEvent.get _ => false

/-- Python's `str.rstrip` restricted to the slash character, on character
lists. -/
def rstripSlashList (l : List Char) : List Char :=
  (l.reverse.dropWhile (fun c => c == '/')).reverse

/-- Embeds `backend_url.rstrip('/')` from `_get_request_info`. -/
def pyRstripSlash (s : String) : String :=
  ⟨rstripSlashList s.data⟩

/-- Embeds `route.strip('/')` from `_get_request_info`. -/
def pyStripSlash (s : String) : String :=
  ⟨rstripSlashList (s.data.dropWhile (fun c => c == '/'))⟩

/-- Message of the error raised on `requests.ConnectionError`. -/
def unreachableMsg : String := "Unable to reach the server."

/-- Message of the error raised on an unexpected status code, carrying the
rendered response body (`format(response.json())` in the source). -/
def remoteMsg (body : String) : String :=
  "An error occured with the remote server: " ++ body

/-- Message of the error raised by `push` when a frame's project has no
remote counterpart. -/
def projectMissingMsg (project i : String) : String :=
  "The project " ++ project ++ " does not exists on the remote server, " ++
    "please create it or edit the frame (id: " ++ i ++ ")"

/-- Message of the error raised by `pull` when a frame's remote project URL
is not in the listing.  The source formats `frame['project']['id']`, which
indexes a URL string and would raise `TypeError` at runtime; the message is
modelled as carrying the project URL. -/
def invalidProjectMsg (projectUrl : String) : String :=
  "Received frame with invalid project from the server (id: " ++ projectUrl ++ ")"

/-- Stands for Python's stringification of the parsed projects JSON when it
is interpolated into an error message. -/
def renderProjects (ps : List RemoteProject) : String :=
  String.intercalate ", " (ps.map (fun p => "name=" ++ p.name ++ ";url=" ++ p.url))

/-- Stands for Python's stringification of the parsed frames JSON when it
is interpolated into an error message. -/
def renderWireFrames (ws : List WireFrame) : String :=
  String.intercalate ", " (ws.map (fun w => "id=" ++ w.id ++ ";project=" ++ w.project))

/-- The backend-instance state: the lazily memoized `_remote_projects`
attribute (`none` models the attribute not being set). -/
structure ArtichState where
  remote_projects : Option (List RemoteProject)
deriving DecidableEq, Repr

/-- Embeds `ArtichIOSync._get_request_info` (artichio.py lines 22-42): requires a
non-empty URL and token, and builds the destination
`url.rstrip('/') ++ "/" ++ route.strip('/') ++ "/"` and the headers. -/
def ArtichIOSync.getRequestInfo (cfg : Config) (route : String) :
    Except PyErr (String × Headers) :=
  if cfg.url ≠ "" ∧ cfg.token ≠ "" then
    Except.ok (pyRstripSlash cfg.url ++ "/" ++ pyStripSlash route ++ "/",
      ⟨"application/json", "Token " ++ cfg.token⟩)
  else
    Except.error (PyErr.configurationError
      ("You must specify a remote URL (backend.url) and a token " ++
        "(backend.token) using the config command."))

/-- Embeds `ArtichIOSync._get_remote_projects` (artichio.py lines 44-61): if the
memo attribute is set, return it with no request; otherwise issue one GET
to the projects endpoint (its outcome is the given `projResp`), memoize the
body on status 200, and raise on connection failure or other statuses. -/
def ArtichIOSync.getRemoteProjects (cfg : Config) (st : ArtichState)
    (projResp : NetResult (List RemoteProject)) :
    ArtichState × List NetEvent × Except PyErr (List RemoteProject) :=
  match st.remote_projects with
  | some ps => (st, [], Except.ok ps)
  | none =>
    match ArtichIOSync.getRequestInfo cfg "projects" with
    | Except.error e => (st, [], Except.error e)
    | Except.ok (dest, _) =>
      match projResp with
      | NetResult.connectionError =>
        (st, [NetEvent.get dest], Except.error (PyErr.watsonError unreachableMsg))
      | NetResult.response status body =>
        if status = 200 then
          (⟨some body⟩, [NetEvent.get dest], Except.ok body)
        else
          (st, [NetEvent.get dest],
            Except.error (PyErr.watsonError (remoteMsg (renderProjects body))))

/-- The per-frame loop of `ArtichIOSync.pull` (artichio.py lines 79-93):
resolve each wire frame's project URL to a name through the memoized
listing and yield the corresponding `Frame`; the first failure ends the
generator with an error after the earlier frames were already yielded. -/
def ArtichIOSync.pullFrames (cfg : Config) (projResp : NetResult (List RemoteProject)) :
    ArtichState → List WireFrame → ArtichState × List NetEvent × (List Frame × Option PyErr)
  | st, [] => (st, [], ([], none))
  | st, w :: rest =>
    match ArtichIOSync.getRemoteProjects cfg st projResp with
    | (st', evts, Except.error e) => (st', evts, ([], some e))
    | (st', evts, Except.ok ps) =>
      match ps.find? (fun p => p.url == w.project) with
      | none =>
        (st', evts, ([], some (PyErr.watsonError (invalidProjectMsg w.project))))
      | some p =>
        match ArtichIOSync.pullFrames cfg projResp st' rest with
        | (st2, evts2, (frs, err)) =>
          (st2, evts ++ evts2,
            (⟨w.id, p.name, w.start, w.stop, w.tags, w.updated_at⟩ :: frs, err))

/-- Embeds `ArtichIOSync.pull` (artichio.py lines 63-93), as the behaviour of the
generator consumed once to the end: the frames it yields, the requests it
issues, the final backend state, and the exception (if any) that ends the
iteration.  `framesResp` is the outcome of the GET to the frames endpoint,
`projResp` that of the GET to the projects endpoint if it happens. -/
def ArtichIOSync.pull (cfg : Config) (st : ArtichState)
    (framesResp : NetResult (List WireFrame))
    (projResp : NetResult (List RemoteProject)) :
    ArtichState × List NetEvent × (List Frame × Option PyErr) :=
  match ArtichIOSync.getRequestInfo cfg "frames" with
  | Except.error e => (st, [], ([], some e))
  | Except.ok (dest, _) =>
    match framesResp with
    | NetResult.connectionError =>
      (st, [NetEvent.get dest], ([], some (PyErr.watsonError unreachableMsg)))
    | NetResult.response status body =>
      if status = 200 then
        match ArtichIOSync.pullFrames cfg projResp st body with
        | (st', evts, r) => (st', NetEvent.get dest :: evts, r)
      else
        (st, [NetEvent.get dest],
          ([], some (PyErr.watsonError (remoteMsg (renderWireFrames body)))))

/-- The validation loop of `ArtichIOSync.push` (artichio.py lines 100-121):
resolve every frame's project name to a remote URL and build the
`to_upload` records; the first unresolvable project raises before anything
further happens. -/
def ArtichIOSync.buildUploads (cfg : Config) (projResp : NetResult (List RemoteProject)) :
    ArtichState → List Frame → ArtichState × List NetEvent × Except PyErr (List UploadRecord)
  | st, [] => (st, [], Except.ok [])
  | st, f :: rest =>
    match ArtichIOSync.getRemoteProjects cfg st projResp with
    | (st', evts, Except.error e) => (st', evts, Except.error e)
    | (st', evts, Except.ok ps) =>
      match ps.find? (fun p => p.name == f.project) with
      | none =>
        (st', evts, Except.error (PyErr.watsonError (projectMissingMsg f.project f.id)))
      | some p =>
        match ArtichIOSync.buildUploads cfg projResp st' rest with
        | (st2, evts2, res) =>
          (st2, evts ++ evts2,
            res.map (fun l => ⟨f.id, toString f.start, toString f.stop, p.url, f.tags⟩ :: l))

/-- Embeds `ArtichIOSync.push` (artichio.py lines 95-135): build the whole
`to_upload` batch first (raising on the first unresolvable project), then
issue one POST to the bulk endpoint (its outcome is `postResp`); on status
201 return `to_upload`, ignoring the response body. -/
def ArtichIOSync.push (cfg : Config) (st : ArtichState)
    (projResp : NetResult (List RemoteProject)) (postResp : NetResult String)
    (frames : List Frame) :
    ArtichState × List NetEvent × Except PyErr (List UploadRecord) :=
  match ArtichIOSync.getRequestInfo cfg "frames/bulk" with
  | Except.error e => (st, [], Except.error e)
  | Except.ok (dest, _) =>
    match ArtichIOSync.buildUploads cfg projResp st frames with
    | (st', evts, Except.error e) => (st', evts, Except.error e)
    | (st', evts, Except.ok toUpload) =>
      match postResp with
      | NetResult.connectionError =>
        (st', evts ++ [NetEvent.post dest], Except.error (PyErr.watsonError unreachableMsg))
      | NetResult.response status body =>
        if status = 201 then
          (st', evts ++ [NetEvent.post dest], Except.ok toUpload)
        else
          (st', evts ++ [NetEvent.post dest],
            Except.error (PyErr.watsonError (remoteMsg body)))

/-- Embeds `Watson.push` (watson.py lines 323-328): select the frames in the
strict `(last_sync, last_pull)` window and delegate them to the backend's
`push`; the Watson state itself is not written. -/
def Watson.push (s : WatsonState) (last_pull : Int) (cfg : Config) (st : ArtichState)
    (projResp : NetResult (List RemoteProject)) (postResp : NetResult String) :
    WatsonState × ArtichState × List NetEvent × Except PyErr (List UploadRecord) :=
  (s, ArtichIOSync.push cfg st projResp postResp (Watson.pushSelection s last_pull))

/-- Sample frame used by concrete witnesses. -/
def fA : Frame := ⟨"a", "projA", 0, 1, ["t1"], 5⟩

/-- Sample frame sharing `fA`'s id but differing in other fields. -/
def fAlt : Frame := ⟨"a", "projA2", 0, 1, ["t1"], 3⟩

/-- Sample frame with an id and project distinct from `fA`'s. -/
def fB : Frame := ⟨"b", "projB", 0, 1, [], 1⟩

/-- Sample remote project listing entry matching `fA.project`. -/
def pA : RemoteProject := ⟨"projA", "http://r/p/a"⟩

/-- C2: a local frame is selected for the push batch exactly when its
`updated_at` lies strictly between the cursor and `last_pull`; the strict
comparisons exclude both boundaries. -/
theorem claim_C2 (s : WatsonState) (last_pull : Int) (f : Frame) :
    f ∈ Watson.pushSelection s last_pull ↔
      f ∈ s.frames ∧ s.last_sync < f.updated_at ∧ f.updated_at < last_pull := by
  simp only [Watson.pushSelection, List.mem_filter, decide_eq_true_eq, gt_iff_lt]
  tauto

/-- Helper for C3: `merge_report` computes the two filters of the conflict
set by the lookup-and-compare predicates, in input order. -/
theorem merge_report_eq_filters (store : List Frame) (conflicts : List Frame) :
    Watson.merge_report store conflicts
      = (conflicts.filter (fun g =>
            match findFrame store g.id with
            | some orig => decide (orig ≠ g)
            | none => false),
         conflicts.filter (fun g => (findFrame store g.id).isNone)) := by
  induction conflicts with
  | nil => rfl
  | cons g rest ih =>
    simp only [Watson.merge_report, ih, List.filter_cons]
    cases h : findFrame store g.id with
    | none => simp [h]
    | some orig =>
      by_cases he : orig = g
      · subst he
        simp [h]
      · simp [h, he]

/-- C3: each conflict frame lands in the conflicting list iff a non-equal
local frame shares its id, in the merging list iff no local frame shares
its id, and in neither iff a field-equal local frame shares its id; both
lists preserve the input order (they are filters of the conflict set). -/
theorem claim_C3 (store conflicts : List Frame) :
    (Watson.merge_report store conflicts).1
        = conflicts.filter (fun g =>
            match findFrame store g.id with
            | some orig => decide (orig ≠ g)
            | none => false)
      ∧ (Watson.merge_report store conflicts).2
        = conflicts.filter (fun g => (findFrame store g.id).isNone)
      ∧ ∀ g, g ∈ conflicts →
          ((g ∉ (Watson.merge_report store conflicts).1
              ∧ g ∉ (Watson.merge_report store conflicts).2)
            ↔ findFrame store g.id = some g) := by
  have hfil := merge_report_eq_filters store conflicts
  refine ⟨by rw [hfil], by rw [hfil], ?_⟩
  intro g hg
  rw [hfil]
  constructor
  · rintro ⟨h1, h2⟩
    cases h : findFrame store g.id with
    | none =>
      exact absurd (List.mem_filter.mpr ⟨hg, by simp [h]⟩) h2
    | some orig =>
      by_cases he : orig = g
      · exact congrArg some he
      · exact absurd (List.mem_filter.mpr ⟨hg, by simp [h, he]⟩) h1
  · intro h
    constructor
    · intro hmem
      have := (List.mem_filter.mp hmem).2
      simp [h] at this
    · intro hmem
      have := (List.mem_filter.mp hmem).2
      simp [h] at this

/-- Witness for C3 at a concrete store and conflict set: `fA` is present
locally and field-equal, so it lands in neither returned list. -/
theorem claim_C3_witness :
    (fA ∉ (Watson.merge_report [fA] [fA, fAlt, fB]).1
        ∧ fA ∉ (Watson.merge_report [fA] [fA, fAlt, fB]).2)
      ↔ findFrame [fA] fA.id = some fA :=
  (claim_C3 [fA] [fA, fAlt, fB]).2.2 fA (by decide)

/-- C5 counterexample: the backend yields one applicable frame and then
raises; `pull` surfaces the error, yet the frame store has already been
modified in memory, so the state is not left as it was before the call. -/
theorem claim_C5_counterexample :
    (Watson.pull ⟨[], 0⟩ ([fA], some (PyErr.watsonError unreachableMsg))).2
        = Except.error (PyErr.watsonError unreachableMsg)
      ∧ (Watson.pull ⟨[], 0⟩ ([fA], some (PyErr.watsonError unreachableMsg))).1
        ≠ ⟨[], 0⟩ := by
  constructor
  · rfl
  · decide

/-- C5 amended: when the backend raises before yielding any frame (the
connection-failure scenario), `pull` leaves the state exactly as before;
`push` never writes the Watson state; and the `last_sync` cursor survives
every `pull`, erroring or not.  Frames applied before a mid-sequence
backend failure, however, remain applied. -/
theorem claim_C5_amended (s : WatsonState) (e : PyErr)
    (remote : List Frame × Option PyErr) (last_pull : Int) (cfg : Config)
    (st : ArtichState) (projResp : NetResult (List RemoteProject))
    (postResp : NetResult String) :
    (Watson.pull s ([], some e)).1 = s
      ∧ (Watson.pull s remote).1.last_sync = s.last_sync
      ∧ (Watson.push s last_pull cfg st projResp postResp).1 = s :=
  ⟨rfl, rfl, rfl⟩

/-- C7: neither `pull` nor `push` moves the `last_sync` cursor, whether the
backend succeeds or fails; cursor advancement is left to the caller. -/
theorem claim_C7 (s : WatsonState) (remote : List Frame × Option PyErr)
    (last_pull : Int) (cfg : Config) (st : ArtichState)
    (projResp : NetResult (List RemoteProject)) (postResp : NetResult String) :
    (Watson.pull s remote).1.last_sync = s.last_sync
      ∧ (Watson.push s last_pull cfg st projResp postResp).1.last_sync
          = s.last_sync :=
  ⟨rfl, rfl⟩

/-- Helper for C1: processing a concatenated pulled sequence is processing
the first part and then the second from the resulting store, with the
applied lists concatenated. -/
theorem pullLoop_append (c : Int) (l₁ l₂ : List Frame) : ∀ store : List Frame,
    Watson.pullLoop c store (l₁ ++ l₂)
      = ((Watson.pullLoop c (Watson.pullLoop c store l₁).1 l₂).1,
         (Watson.pullLoop c store l₁).2
           ++ (Watson.pullLoop c (Watson.pullLoop c store l₁).1 l₂).2) := by
  induction l₁ with
  | nil =>
    intro store
    simp [Watson.pullLoop]
  | cons f rest ih =>
    intro store
    simp only [List.cons_append, Watson.pullLoop, List.append_eq]
    by_cases hc : memFrame store f.id = false ∨ f.updated_at > c
    · simp only [if_pos hc, ih (setFrame store f), List.cons_append]
    · simp only [if_neg hc, ih store]

/-- C1: at the moment the pulled frame at position `i` is processed, it is
applied to the store (insert/overwrite) and appended to the result exactly
when its id is absent from the store as it then stands or its `updated_at`
is strictly above the cursor read at the start; otherwise the step changes
nothing and returns nothing. -/
theorem claim_C1 (c : Int) (store l : List Frame) (i : Nat) (h : i < l.length) :
    (memFrame (Watson.pullLoop c store (l.take i)).1 (l.get ⟨i, h⟩).id = false
        ∨ (l.get ⟨i, h⟩).updated_at > c
      → Watson.pullLoop c store (l.take (i + 1))
          = (setFrame (Watson.pullLoop c store (l.take i)).1 (l.get ⟨i, h⟩),
             (Watson.pullLoop c store (l.take i)).2 ++ [l.get ⟨i, h⟩]))
    ∧ (memFrame (Watson.pullLoop c store (l.take i)).1 (l.get ⟨i, h⟩).id = true
        ∧ (l.get ⟨i, h⟩).updated_at ≤ c
      → Watson.pullLoop c store (l.take (i + 1))
          = Watson.pullLoop c store (l.take i)) := by
  have htake : l.take (i + 1) = l.take i ++ [l.get ⟨i, h⟩] := by
    rw [List.take_succ]
    simp [List.getElem?_eq_getElem h]
  constructor
  · intro hcond
    rw [htake, pullLoop_append c (l.take i) [l.get ⟨i, h⟩] store]
    simp only [Watson.pullLoop, if_pos hcond]
  · rintro ⟨h1, h2⟩
    have hneg : ¬(memFrame (Watson.pullLoop c store (l.take i)).1 (l.get ⟨i, h⟩).id = false
        ∨ (l.get ⟨i, h⟩).updated_at > c) := by
      rintro (hx | hx)
      · rw [h1] at hx
        exact Bool.noConfusion hx
      · exact absurd hx (not_lt.mpr h2)
    rw [htake, pullLoop_append c (l.take i) [l.get ⟨i, h⟩] store]
    simp only [Watson.pullLoop, if_neg hneg, List.append_nil]

/-- Witness for C1: with an empty store and cursor `0`, the single pulled
frame `fA` is applied and returned. -/
theorem claim_C1_witness :
    Watson.pullLoop 0 [] ([fA].take (0 + 1))
      = (setFrame (Watson.pullLoop 0 [] ([fA].take 0)).1 ([fA].get ⟨0, by decide⟩),
         (Watson.pullLoop 0 [] ([fA].take 0)).2 ++ [[fA].get ⟨0, by decide⟩]) :=
  (claim_C1 0 [] [fA] 0 (by decide)).1 (by decide)

/-- A string of `n` slash characters, used to state trailing-slash
invariance of the endpoint construction. -/
def slashes (n : Nat) : String := ⟨List.replicate n '/'⟩

/-- Helper: the character data of `slashes n`. -/
theorem slashes_data (n : Nat) : (slashes n).data = List.replicate n '/' := rfl

/-- Helper for C9: dropping leading slashes consumes any replicated slash
block in front. -/
theorem dropWhile_slash_replicate (n : Nat) (l : List Char) :
    (List.replicate n '/' ++ l).dropWhile (fun c => c == '/')
      = l.dropWhile (fun c => c == '/') := by
  induction n with
  | zero => simp
  | succ k ih => simp [List.replicate_succ, List.dropWhile_cons, ih]

/-- Helper for C9: appending trailing slashes does not change the
right-stripped URL. -/
theorem pyRstripSlash_append_slashes (s : String) (n : Nat) :
    pyRstripSlash (s ++ slashes n) = pyRstripSlash s := by
  show String.mk (rstripSlashList (s ++ slashes n).data)
      = String.mk (rstripSlashList s.data)
  rw [String.data_append, slashes_data]
  unfold rstripSlashList
  rw [List.reverse_append, List.reverse_replicate, dropWhile_slash_replicate]

/-- Helper for C9: a URL with trailing slashes appended is non-empty as
soon as the base or the slash block is. -/
theorem append_slashes_ne_empty (s : String) (n : Nat) (h : s ≠ "" ∨ n ≠ 0) :
    s ++ slashes n ≠ "" := by
  intro he
  have hd : s.data ++ List.replicate n '/' = [] := by
    have := String.ext_iff.mp he
    rwa [String.data_append, slashes_data] at this
  obtain ⟨h1, h2⟩ := List.append_eq_nil.mp hd
  cases h with
  | inl hs => exact hs (String.ext_iff.mpr h1)
  | inr hn => exact hn (by simpa using congrArg List.length h2)

/-- C9: for any backend URL with any number of trailing slashes appended
and any route, the request destination is the URL stripped of trailing
slashes, a single slash, the route stripped of surrounding slashes, and
exactly one trailing slash. -/
theorem claim_C9 (url token route : String) (n : Nat)
    (h : url ≠ "" ∨ n ≠ 0) (ht : token ≠ "") :
    ArtichIOSync.getRequestInfo ⟨url ++ slashes n, token⟩ route
      = Except.ok (pyRstripSlash url ++ "/" ++ pyStripSlash route ++ "/",
          ⟨"application/json", "Token " ++ token⟩) := by
  unfold ArtichIOSync.getRequestInfo
  rw [if_pos ⟨append_slashes_ne_empty url n h, ht⟩]
  rw [pyRstripSlash_append_slashes]

/-- Witness for C9 at a concrete URL with two trailing slashes and a route
with surrounding slashes. -/
theorem claim_C9_witness :
    ArtichIOSync.getRequestInfo ⟨"http://x" ++ slashes 2, "tok"⟩ "/frames/bulk/"
      = Except.ok (pyRstripSlash "http://x" ++ "/" ++ pyStripSlash "/frames/bulk/" ++ "/",
          ⟨"application/json", "Token " ++ "tok"⟩) :=
  claim_C9 "http://x" "tok" "/frames/bulk/" 2 (Or.inl (by decide)) (by decide)

/-- C8: a first call to `_get_remote_projects` that succeeds from an unset
cache issues exactly one GET and memoizes its body; any later call on the
same instance returns the memoized listing and issues no request at all. -/
theorem claim_C8 (cfg : Config) (resp resp' : NetResult (List RemoteProject))
    (ps : List RemoteProject) (st' : ArtichState) (evts : List NetEvent)
    (h : ArtichIOSync.getRemoteProjects cfg ⟨none⟩ resp = (st', evts, Except.ok ps)) :
    (∃ d, evts = [NetEvent.get d]) ∧ st'.remote_projects = some ps
      ∧ ArtichIOSync.getRemoteProjects cfg st' resp' = (st', [], Except.ok ps) := by
  unfold ArtichIOSync.getRemoteProjects at h
  cases hreq : ArtichIOSync.getRequestInfo cfg "projects" with
  | error e =>
    rw [hreq] at h
    simp at h
  | ok pr =>
    obtain ⟨dest, hdrs⟩ := pr
    rw [hreq] at h
    cases resp with
    | connectionError => simp at h
    | response status body =>
      by_cases hs : status = 200
      · simp only [if_pos hs, Prod.mk.injEq, Except.ok.injEq] at h
        obtain ⟨h1, h2, h3⟩ := h
        subst h1 h3
        exact ⟨⟨dest, h2.symm⟩, rfl, rfl⟩
      · simp only [if_neg hs] at h
        simp at h

/-- Witness for C8 at a concrete configuration and 200 response. -/
theorem claim_C8_witness :
    (∃ d, [NetEvent.get (pyRstripSlash "u" ++ "/" ++ pyStripSlash "projects" ++ "/")]
        = [NetEvent.get d])
      ∧ (ArtichState.mk (some [pA])).remote_projects = some [pA]
      ∧ ArtichIOSync.getRemoteProjects ⟨"u", "t"⟩ ⟨some [pA]⟩ NetResult.connectionError
          = (⟨some [pA]⟩, [], Except.ok [pA]) :=
  claim_C8 ⟨"u", "t"⟩ (NetResult.response 200 [pA]) NetResult.connectionError
    [pA] ⟨some [pA]⟩
    [NetEvent.get (pyRstripSlash "u" ++ "/" ++ pyStripSlash "projects" ++ "/")] rfl

/-- The remote project listing `_get_remote_projects` would deliver: either
already memoized on the instance, or obtainable from a 200 response of the
projects endpoint. -/
def listingAvailable (st : ArtichState) (projResp : NetResult (List RemoteProject))
    (ps : List RemoteProject) : Prop :=
  st.remote_projects = some ps
    ∨ (st.remote_projects = none ∧ projResp = NetResult.response 200 ps)

/-- Helper for C4 and C10: under an available listing, `_get_remote_projects`
returns that listing, leaves the cache holding it, and issues no POST. -/
theorem getRemoteProjects_available (cfg : Config) (st : ArtichState)
    (projResp : NetResult (List RemoteProject)) (ps : List RemoteProject)
    (hu : cfg.url ≠ "") (ht : cfg.token ≠ "")
    (hl : listingAvailable st projResp ps) :
    ∃ evts, ArtichIOSync.getRemoteProjects cfg st projResp
        = (⟨some ps⟩, evts, Except.ok ps)
      ∧ ∀ e ∈ evts, e.isPost = false := by
  rcases hl with hcache | ⟨hnone, hresp⟩
  · obtain ⟨rp⟩ := st
    simp only at hcache
    subst hcache
    exact ⟨[], rfl, by simp⟩
  · obtain ⟨rp⟩ := st
    simp only at hnone
    subst hnone
    subst hresp
    refine ⟨[NetEvent.get (pyRstripSlash cfg.url ++ "/" ++ pyStripSlash "projects" ++ "/")],
      ?_, by simp [NetEvent.isPost]⟩
    unfold ArtichIOSync.getRemoteProjects ArtichIOSync.getRequestInfo
    rw [if_pos ⟨hu, ht⟩]
    rfl

/-- The upload record `push` builds for one frame from the listing `ps`:
its id, stringified start and stop, the url of the first listing entry
whose name matches the frame's project, and its tags. -/
def recordFor (ps : List RemoteProject) (f : Frame) : UploadRecord :=
  ⟨f.id, toString f.start, toString f.stop,
    ((ps.find? (fun p => p.name == f.project)).map RemoteProject.url).getD "",
    f.tags⟩

/-- Helper for C4: if some frame's project is absent from the available
listing, the validation loop errors on the first such frame and issues no
POST. -/
theorem buildUploads_missing (cfg : Config) (projResp : NetResult (List RemoteProject))
    (ps : List RemoteProject) (f : Frame) (hu : cfg.url ≠ "") (ht : cfg.token ≠ "") :
    ∀ (frames : List Frame) (st : ArtichState),
      listingAvailable st projResp ps →
      frames.find? (fun fr => (ps.find? (fun p => p.name == fr.project)).isNone) = some f →
      ∃ st2 evts,
        ArtichIOSync.buildUploads cfg projResp st frames
          = (st2, evts, Except.error (PyErr.watsonError (projectMissingMsg f.project f.id)))
        ∧ ∀ e ∈ evts, e.isPost = false := by
  intro frames
  induction frames with
  | nil =>
    intro st hl hf
    simp [List.find?] at hf
  | cons g rest ih =>
    intro st hl hf
    obtain ⟨evts, hget, hevts⟩ := getRemoteProjects_available cfg st projResp ps hu ht hl
    cases hfind : ps.find? (fun p => p.name == g.project) with
    | none =>
      have hfg : g = f := by
        rw [List.find?_cons_of_pos _ (by simp [hfind])] at hf
        exact Option.some.inj hf
      subst hfg
      refine ⟨⟨some ps⟩, evts, ?_, hevts⟩
      simp only [ArtichIOSync.buildUploads, hget, hfind]
    | some p =>
      rw [List.find?_cons_of_neg _ (by simp [hfind])] at hf
      obtain ⟨st2, evts2, hrec, hevts2⟩ := ih ⟨some ps⟩ (Or.inl rfl) hf
      refine ⟨st2, evts ++ evts2, ?_, ?_⟩
      · simp only [ArtichIOSync.buildUploads, hget, hfind, hrec, Except.map]
      · intro e he
        rcases List.mem_append.mp he with h | h
        · exact hevts e h
        · exact hevts2 e h

/-- Helper for C10: when every frame's project resolves in the available
listing, the validation loop returns one record per frame, in order. -/
theorem buildUploads_resolved (cfg : Config) (projResp : NetResult (List RemoteProject))
    (ps : List RemoteProject) (hu : cfg.url ≠ "") (ht : cfg.token ≠ "") :
    ∀ (frames : List Frame) (st : ArtichState),
      listingAvailable st projResp ps →
      (∀ f ∈ frames, (ps.find? (fun p => p.name == f.project)).isSome = true) →
      ∃ st2 evts,
        ArtichIOSync.buildUploads cfg projResp st frames
          = (st2, evts, Except.ok (frames.map (recordFor ps))) := by
  intro frames
  induction frames with
  | nil =>
    intro st _ _
    exact ⟨st, [], rfl⟩
  | cons g rest ih =>
    intro st hl hres
    obtain ⟨evts, hget, _⟩ := getRemoteProjects_available cfg st projResp ps hu ht hl
    obtain ⟨p, hfind⟩ := Option.isSome_iff_exists.mp (hres g (by simp))
    obtain ⟨st2, evts2, hrec⟩ := ih ⟨some ps⟩ (Or.inl rfl)
      (fun f hf => hres f (List.mem_cons_of_mem g hf))
    refine ⟨st2, evts ++ evts2, ?_⟩
    simp only [ArtichIOSync.buildUploads, hget, hfind, hrec, Except.map, List.map_cons]
    have : recordFor ps g = ⟨g.id, toString g.start, toString g.stop, p.url, g.tags⟩ := by
      simp [recordFor, hfind]
    rw [this]

/-- C4: a push batch containing a frame whose project has no remote
counterpart raises the project-does-not-exist error for the first such
frame, and no POST to the frames endpoint is ever issued for the batch. -/
theorem claim_C4 (cfg : Config) (st : ArtichState)
    (projResp : NetResult (List RemoteProject)) (postResp : NetResult String)
    (frames : List Frame) (ps : List RemoteProject) (f : Frame)
    (hu : cfg.url ≠ "") (ht : cfg.token ≠ "")
    (hl : listingAvailable st projResp ps)
    (hf : frames.find? (fun fr => (ps.find? (fun p => p.name == fr.project)).isNone)
            = some f) :
    (ArtichIOSync.push cfg st projResp postResp frames).2.2
        = Except.error (PyErr.watsonError (projectMissingMsg f.project f.id))
      ∧ ∀ e ∈ (ArtichIOSync.push cfg st projResp postResp frames).2.1,
          e.isPost = false := by
  obtain ⟨st2, evts, hbu, hevts⟩ :=
    buildUploads_missing cfg projResp ps f hu ht frames st hl hf
  have hreq : ArtichIOSync.getRequestInfo cfg "frames/bulk"
      = Except.ok (pyRstripSlash cfg.url ++ "/" ++ pyStripSlash "frames/bulk" ++ "/",
          ⟨"application/json", "Token " ++ cfg.token⟩) := by
    unfold ArtichIOSync.getRequestInfo
    rw [if_pos ⟨hu, ht⟩]
  constructor
  · simp only [ArtichIOSync.push, hreq, hbu]
  · simp only [ArtichIOSync.push, hreq, hbu]
    exact hevts

/-- Witness for C4: a one-frame batch whose project is missing from the
memoized listing errors without any POST event. -/
theorem claim_C4_witness :
    (ArtichIOSync.push ⟨"u", "t"⟩ ⟨some [pA]⟩ NetResult.connectionError
          (NetResult.response 201 "") [fB]).2.2
        = Except.error (PyErr.watsonError (projectMissingMsg fB.project fB.id))
      ∧ ∀ e ∈ (ArtichIOSync.push ⟨"u", "t"⟩ ⟨some [pA]⟩ NetResult.connectionError
          (NetResult.response 201 "") [fB]).2.1, e.isPost = false :=
  claim_C4 ⟨"u", "t"⟩ ⟨some [pA]⟩ NetResult.connectionError (NetResult.response 201 "")
    [fB] [pA] fB (by decide) (by decide) (Or.inl rfl) (by decide)

/-- C10: when every project resolves and the POST returns status 201,
`push` returns exactly one record per input frame, in input order, each
built from the frame and the resolved project URL alone — for any response
body whatsoever. -/
theorem claim_C10 (cfg : Config) (st : ArtichState)
    (projResp : NetResult (List RemoteProject)) (ps : List RemoteProject)
    (frames : List Frame) (body : String)
    (hu : cfg.url ≠ "") (ht : cfg.token ≠ "")
    (hl : listingAvailable st projResp ps)
    (hres : ∀ f ∈ frames, (ps.find? (fun p => p.name == f.project)).isSome = true) :
    (ArtichIOSync.push cfg st projResp (NetResult.response 201 body) frames).2.2
      = Except.ok (frames.map (recordFor ps)) := by
  obtain ⟨st2, evts, hbu⟩ :=
    buildUploads_resolved cfg projResp ps hu ht frames st hl hres
  have hreq : ArtichIOSync.getRequestInfo cfg "frames/bulk"
      = Except.ok (pyRstripSlash cfg.url ++ "/" ++ pyStripSlash "frames/bulk" ++ "/",
          ⟨"application/json", "Token " ++ cfg.token⟩) := by
    unfold ArtichIOSync.getRequestInfo
    rw [if_pos ⟨hu, ht⟩]
  simp only [ArtichIOSync.push, hreq, hbu]
  simp

/-- Witness for C10: a one-frame batch resolving against a fresh listing
fetch, with a 201 response whose body is ignored. -/
theorem claim_C10_witness :
    (ArtichIOSync.push ⟨"u", "t"⟩ ⟨none⟩ (NetResult.response 200 [pA])
          (NetResult.response 201 "anything") [fA]).2.2
      = Except.ok ([fA].map (recordFor [pA])) :=
  claim_C10 ⟨"u", "t"⟩ ⟨none⟩ (NetResult.response 200 [pA]) [pA] [fA] "anything"
    (by decide) (by decide) (Or.inr ⟨rfl, rfl⟩) (by decide)

/-- C6 counterexample: at a concrete configuration, the error raised on a
connection failure and the error raised on an unexpected status are values
of the same Python exception type (`WatsonError`), so the two failure modes
are not distinguishable error types at the public interface. -/
theorem claim_C6_counterexample :
    (ArtichIOSync.pull ⟨"http://w", "tok"⟩ ⟨none⟩ NetResult.connectionError
          (NetResult.response 200 [pA])).2.2.2
        = some (PyErr.watsonError unreachableMsg)
      ∧ (ArtichIOSync.pull ⟨"http://w", "tok"⟩ ⟨none⟩ (NetResult.response 500 [])
          (NetResult.response 200 [pA])).2.2.2
        = some (PyErr.watsonError (remoteMsg (renderWireFrames [])))
      ∧ errKind (PyErr.watsonError unreachableMsg)
          = errKind (PyErr.watsonError (remoteMsg (renderWireFrames []))) :=
  ⟨rfl, rfl, rfl⟩

/-- C6 amended: connection failures surface as `WatsonError` with the fixed
unreachable message and unexpected statuses surface as `WatsonError`
carrying the response body, on pull and push alike; the two share the
exception type `WatsonError` (distinguishable only by message), while
`ConfigurationError` is a distinct type. -/
theorem claim_C6_amended (cfg : Config) (st : ArtichState)
    (projResp : NetResult (List RemoteProject)) (body : List WireFrame)
    (status : Nat) (postBody : String) (status' : Nat) (m : String)
    (hu : cfg.url ≠ "") (ht : cfg.token ≠ "")
    (hs : status ≠ 200) (hs' : status' ≠ 201) :
    (ArtichIOSync.pull cfg st NetResult.connectionError projResp).2.2.2
        = some (PyErr.watsonError unreachableMsg)
      ∧ (ArtichIOSync.pull cfg st (NetResult.response status body) projResp).2.2.2
        = some (PyErr.watsonError (remoteMsg (renderWireFrames body)))
      ∧ (ArtichIOSync.push cfg st projResp NetResult.connectionError []).2.2
        = Except.error (PyErr.watsonError unreachableMsg)
      ∧ (ArtichIOSync.push cfg st projResp (NetResult.response status' postBody) []).2.2
        = Except.error (PyErr.watsonError (remoteMsg postBody))
      ∧ errKind (PyErr.watsonError unreachableMsg)
          = errKind (PyErr.watsonError (remoteMsg postBody))
      ∧ errKind (PyErr.configurationError m) ≠ errKind (PyErr.watsonError unreachableMsg) := by
  have hreqF : ArtichIOSync.getRequestInfo cfg "frames"
      = Except.ok (pyRstripSlash cfg.url ++ "/" ++ pyStripSlash "frames" ++ "/",
          ⟨"application/json", "Token " ++ cfg.token⟩) := by
    unfold ArtichIOSync.getRequestInfo
    rw [if_pos ⟨hu, ht⟩]
  have hreqB : ArtichIOSync.getRequestInfo cfg "frames/bulk"
      = Except.ok (pyRstripSlash cfg.url ++ "/" ++ pyStripSlash "frames/bulk" ++ "/",
          ⟨"application/json", "Token " ++ cfg.token⟩) := by
    unfold ArtichIOSync.getRequestInfo
    rw [if_pos ⟨hu, ht⟩]
  refine ⟨?_, ?_, ?_, ?_, rfl, ?_⟩
  · simp only [ArtichIOSync.pull, hreqF]
  · simp only [ArtichIOSync.pull, hreqF, if_neg hs]
  · simp only [ArtichIOSync.push, hreqB, ArtichIOSync.buildUploads]
  · simp only [ArtichIOSync.push, hreqB, ArtichIOSync.buildUploads, if_neg hs']
  · simp [errKind]

/-- Witness for the amended C6 at a concrete configuration and responses. -/
theorem claim_C6_amended_witness :
    (ArtichIOSync.pull ⟨"u", "t"⟩ ⟨none⟩ NetResult.connectionError
          (NetResult.response 200 [pA])).2.2.2
        = some (PyErr.watsonError unreachableMsg)
      ∧ errKind (PyErr.configurationError "x")
          ≠ errKind (PyErr.watsonError unreachableMsg) :=
  ⟨(claim_C6_amended ⟨"u", "t"⟩ ⟨none⟩ (NetResult.response 200 [pA]) [] 500 "oops" 500 "x"
      (by decide) (by decide) (by decide) (by decide)).1,
   (claim_C6_amended ⟨"u", "t"⟩ ⟨none⟩ (NetResult.response 200 [pA]) [] 500 "oops" 500 "x"
      (by decide) (by decide) (by decide) (by decide)).2.2.2.2.2⟩
